import Mathlib

/-!
# Verification of the paintball position-tracker server

Shallow embedding of `main.py`: the `ConnectionManager` singleton (live
connections, latest positions, bounded per-user history), the tracked-user
websocket ingestion loop, the admin websocket fan-out, JWT verification and
the history query endpoint, together with proofs of the specified
behavioural properties.

Modelling conventions:
* WebSocket handles are natural-number identifiers.
* Python dicts keyed by username are total functions `String → _` with
  explicit absence (`Option`, or default `[]` for `history`, matching
  `setdefault(username, [])`).
* Latitude/longitude values are exact decimal numbers (`Dec`): the server
  never computes with coordinates, it only converts them with `float()` and
  passes them through, so an exact decimal representation is faithful for
  every control path modelled here.
* An exception escaping a code region is modelled with `Except`/`Option`.
-/

namespace Paintball

/-- Exact decimal number with value `mant / 10 ^ exp` (not normalised). -/
structure Dec where
  mant : Int
  exp : ℕ
deriving DecidableEq

/-- A JSON value as it can appear in a field of a client position message.
`arrOrObj` stands for any nested array/object (rejected by `float()`). -/
inductive Json where
  | num (d : Dec)
  | str (s : String)
  | bool (b : Bool)
  | null
  | arrOrObj
deriving DecidableEq

/-- Numeric value of a digit list, most significant first (helper for
string-to-float conversion). -/
def digitsVal (l : List Char) : ℕ :=
  l.foldl (fun a c => 10 * a + (c.toNat - 48)) 0

/-- Python `float(s)` on a string, modelled on plain decimal literals:
optional sign, then digits with at most one decimal point and at least one
digit.  Returns `none` when `float` would raise `ValueError`. -/
def parseDecimal (s : String) : Option Dec :=
  let l := s.toList
  let (sgn, l) : Int × List Char :=
    match l with
    | '-' :: r => (-1, r)
    | '+' :: r => (1, r)
    | r => (1, r)
  let intPart := l.takeWhile Char.isDigit
  let rest := l.dropWhile Char.isDigit
  match rest with
  | [] => if intPart.isEmpty then none else some ⟨sgn * digitsVal intPart, 0⟩
  | '.' :: frac =>
    if frac.all Char.isDigit && (!intPart.isEmpty || !frac.isEmpty) then
      some ⟨sgn * (digitsVal intPart * 10 ^ frac.length + digitsVal frac), frac.length⟩
    else none
  | _ => none

/-- Python `float(x)` applied to the result of `obj.get(field)`
(main.py:158-159): `none` is a missing field (`obj.get` returns `None` and
`float(None)` raises `TypeError`).  JSON numbers convert to themselves,
strings go through `parseDecimal`, booleans convert to `1.0`/`0.0`, and
`null`/arrays/objects raise. -/
def pyFloat : Option Json → Option Dec
  | none => none
  | some (.num d) => some d
  | some (.str s) => parseDecimal s
  | some (.bool b) => some ⟨if b then 1 else 0, 0⟩
  | some .null => none
  | some .arrOrObj => none

/-- A successfully `json.loads`-parsed object message, as far as the
ingestion loop inspects it: its `"lat"` and `"lon"` fields. -/
structure RawMsg where
  latField : Option Json
  lonField : Option Json
deriving DecidableEq

/-- One position sample as stored in `manager.latest` and
`manager.history`: the dict `{"lat": lat, "lon": lon, "ts": ts}` built at
main.py:161-162. -/
structure Sample where
  lat : Dec
  lon : Dec
  ts : Int
deriving DecidableEq

/-- A row of the `locations` table (main.py:48-54); the autoincrement `id`
column is never read and is omitted.  The durable store is the list of rows
in insertion order; `db.add`+`commit` appends one row. -/
structure Location where
  username : String
  lat : Dec
  lon : Dec
  timestamp : Int
deriving DecidableEq

/-- State of the `ConnectionManager` singleton (main.py:87-101). -/
structure ConnectionManager where
  active_connections : String → Option ℕ
  latest : String → Option Sample
  history : String → List Sample

/-- The freshly constructed manager (main.py:88-91): all three dicts empty. -/
def ConnectionManager.init : ConnectionManager :=
  ⟨fun _ => none, fun _ => none, fun _ => []⟩

/-- `ConnectionManager.connect` (main.py:93-95): accept the socket and
store it under the username, silently overwriting any previous entry. -/
def ConnectionManager.connect (m : ConnectionManager) (username : String)
    (ws : ℕ) : ConnectionManager :=
  { m with active_connections :=
      fun u => if u = username then some ws else m.active_connections u }

/-- `ConnectionManager.disconnect` (main.py:97-99): delete the entry if
present (deleting an absent key and leaving an absent key absent coincide
in the functional encoding). -/
def ConnectionManager.disconnect (m : ConnectionManager)
    (username : String) : ConnectionManager :=
  { m with active_connections :=
      fun u => if u = username then none else m.active_connections u }

/-- The per-sample registry update of the ingestion loop (main.py:161-164):
overwrite `latest[username]`, append to `history[username]`, and `pop(0)`
when the buffer exceeds 200 entries. -/
def recordSample (m : ConnectionManager) (username : String)
    (s : Sample) : ConnectionManager :=
  let h := m.history username ++ [s]
  let h := if 200 < h.length then h.tail else h
  { m with
    latest := fun u => if u = username then some s else m.latest u,
    history := fun u => if u = username then h else m.history u }

/-- The JSON object broadcast to admins for one sample (main.py:170). -/
structure Payload where
  type : String
  username : String
  lat : Dec
  lon : Dec
  ts : Int
deriving DecidableEq

/-- The `for admin_ws in list(admin_connections)` loop (main.py:171-178).
The first argument of the recursion is the snapshot copy still to visit;
the second is the live `admin_connections` list, mutated during iteration.
`fails ws = true` models `send_text` raising for that socket; the handler
then calls `remove` (first occurrence; the `ValueError` when it is already
gone is swallowed by the bare `except`).  Returns the live list after the
loop together with the sockets that received the message, in send order. -/
def broadcastLoop (fails : ℕ → Bool) :
    List ℕ → List ℕ → List ℕ × List ℕ
  | [], live => (live, [])
  | ws :: rest, live =>
    if fails ws then broadcastLoop fails rest (live.erase ws)
    else
      ((broadcastLoop fails rest live).1,
        ws :: (broadcastLoop fails rest live).2)

/-- One whole broadcast call: iterate over the snapshot `list(admin_connections)`
taken at entry, starting from the same live list. -/
def broadcast (fails : ℕ → Bool) (admins : List ℕ) : List ℕ × List ℕ :=
  broadcastLoop fails admins admins

/-- Everything produced by one successful iteration of the tracked-user
receive loop. -/
structure StepOut where
  mgr : ConnectionManager
  db : List Location
  admins : List ℕ
  payload : Payload
  delivered : List ℕ

/-- One iteration of the `while True` receive loop (main.py:155-178) on an
already received text frame.  `frame = none` models a frame on which
`json.loads` raises (or yields a non-object); a failing `float()` on either
field likewise raises.  `Except.error ()` is an exception escaping the
iteration, which aborts the loop.  On success: timestamp, registry update,
one durable append, and one broadcast of the payload. -/
def userStep (fails : ℕ → Bool) (username : String) (frame : Option RawMsg)
    (now : Int) (m : ConnectionManager) (db : List Location)
    (admins : List ℕ) : Except Unit StepOut :=
  match frame with
  | none => .error ()
  | some msg =>
    match pyFloat msg.latField, pyFloat msg.lonField with
    | some lat, some lon =>
      let s : Sample := ⟨lat, lon, now⟩
      .ok ⟨recordSample m username s,
           db ++ [⟨username, lat, lon, now⟩],
           (broadcast fails admins).1,
           ⟨"update", username, lat, lon, now⟩,
           (broadcast fails admins).2⟩
    | _, _ => .error ()

/-- The tracked-user receive loop with its exception handlers
(main.py:153-182).  `frames` pairs each incoming frame with the value
`int(time.time())` reads at that iteration; exhausting the list models the
client disconnecting (`WebSocketDisconnect`).  Both `WebSocketDisconnect`
and any other exception run `manager.disconnect(username)` and end the
handler. -/
def userLoop (fails : ℕ → Bool) (username : String) :
    List (Option RawMsg × Int) → ConnectionManager → List Location →
    List ℕ → ConnectionManager × List Location × List ℕ
  | [], m, db, admins => (m.disconnect username, db, admins)
  | (frame, now) :: rest, m, db, admins =>
    match userStep fails username frame now m db admins with
    | .error _ => (m.disconnect username, db, admins)
    | .ok out => userLoop fails username rest out.mgr out.db out.admins

/-- Decoded JWT claims object, as far as the server reads it: only the
`"sub"` claim is ever consulted after decoding. -/
structure TokenPayload where
  sub : Option String
deriving DecidableEq

/-- `verify_token` (main.py:76-84).  The `jwt.decode` step is an input:
`none` models `JWTError` (bad signature, expired); `some p` the decoded
claims.  `Except.error ()` models the raised `HTTPException(401)`, thrown
when decoding fails or when the payload has no `"sub"` claim. -/
def verify_token (decoded : Option TokenPayload) : Except Unit String :=
  match decoded with
  | none => .error ()
  | some p =>
    match p.sub with
    | none => .error ()
    | some username => .ok username

/-- Outcome of the tracked-user websocket handler. -/
inductive UserResult where
  | policyClosed (code : ℕ) (m : ConnectionManager) (db : List Location)
      (admins : List ℕ)
  | finished (m : ConnectionManager) (db : List Location) (admins : List ℕ)

/-- `websocket_user` (main.py:146-182): verify the token, closing with code
1008 (policy violation) on failure before any state is touched; otherwise
register the socket and run the receive loop. -/
def websocket_user (decoded : Option TokenPayload) (fails : ℕ → Bool)
    (ws : ℕ) (frames : List (Option RawMsg × Int)) (m : ConnectionManager)
    (db : List Location) (admins : List ℕ) : UserResult :=
  match verify_token decoded with
  | .error _ => .policyClosed 1008 m db admins
  | .ok username =>
    match userLoop fails username frames (m.connect username ws) db admins with
    | (m', db', admins') => .finished m' db' admins'

/-- A row of the `users` table as far as the admin endpoint reads it
(main.py:41-46): the `is_admin` flag (0 = regular user). -/
structure UserRow where
  is_admin : Int
deriving DecidableEq

/-- The `"initial"` snapshot message sent to a newly connected admin
(main.py:200). -/
structure InitialMsg where
  type : String
  latest : String → Option Sample
  history : String → List Sample

/-- Outcome of the admin websocket handler's admission phase. -/
inductive AdminResult where
  | policyClosed (code : ℕ) (admins : List ℕ)
  | observing (admins : List ℕ) (initial : InitialMsg)

/-- `websocket_admin`, admission phase (main.py:185-201): verify the token,
look the identity up in the `users` table, and close with code 1008 unless
the row exists with a non-zero `is_admin`; otherwise accept, append to
`admin_connections` and send the snapshot. -/
def websocket_admin (decoded : Option TokenPayload)
    (users : String → Option UserRow) (ws : ℕ) (m : ConnectionManager)
    (admins : List ℕ) : AdminResult :=
  match verify_token decoded with
  | .error _ => .policyClosed 1008 admins
  | .ok username =>
    match users username with
    | none => .policyClosed 1008 admins
    | some row =>
      if row.is_admin = 0 then .policyClosed 1008 admins
      else .observing (admins ++ [ws]) ⟨"initial", m.latest, m.history⟩

/-- One `{lat, lon, ts}` element of the history endpoint's response
(main.py:218). -/
structure HistoryEntry where
  lat : Dec
  lon : Dec
  ts : Int
deriving DecidableEq

/-- The SQL query of the history endpoint (main.py:216): filter the rows by
username, `ORDER BY timestamp DESC`, `LIMIT 200`. -/
def queryRecent (db : List Location) (username : String) : List Location :=
  ((db.filter (fun r => r.username = username)).mergeSort
    (fun a b => b.timestamp ≤ a.timestamp)).take 200

/-- `get_history` (main.py:212-218): verify the token (its 401 propagates),
then run the query and shape each row as `{lat, lon, ts}`.  No admin-role
check occurs: the `users` table is not consulted at all. -/
def get_history (decoded : Option TokenPayload) (db : List Location)
    (username : String) : Except Unit (List HistoryEntry) :=
  match verify_token decoded with
  | .error e => .error e
  | .ok _ =>
    .ok ((queryRecent db username).map fun r => ⟨r.lat, r.lon, r.timestamp⟩)

/-- Repeated ingestion of consecutive samples for one identity: the
registry mutations performed by `userStep` for each of them in order. -/
def ingestAll (username : String) (samples : List Sample)
    (m : ConnectionManager) : ConnectionManager :=
  samples.foldl (fun m s => recordSample m username s) m

/-- A sequence of `recordSample` operations, interleaved across arbitrary
identities, applied in order. -/
def recordEvents (events : List (String × Sample))
    (m : ConnectionManager) : ConnectionManager :=
  events.foldl (fun m e => recordSample m e.1 e.2) m

/-- A frame is malformed when `json.loads` fails on it or `float()` fails
on its `"lat"` or `"lon"` field. -/
def Malformed (frame : Option RawMsg) : Prop :=
  frame = none ∨
    ∃ msg, frame = some msg ∧
      (pyFloat msg.latField = none ∨ pyFloat msg.lonField = none)

/-! ## Helper lemmas -/

lemma broadcastLoop_snd (fails : ℕ → Bool) (snap live : List ℕ) :
    (broadcastLoop fails snap live).2 = snap.filter (fun ws => !fails ws) := by
  induction snap generalizing live with
  | nil => rfl
  | cons w rest ih =>
    by_cases h : fails w
    · simp [broadcastLoop, h, ih]
    · simp [broadcastLoop, h, ih]

lemma broadcastLoop_fst (fails : ℕ → Bool) (snap live : List ℕ) :
    (broadcastLoop fails snap live).1 = live.diff (snap.filter fails) := by
  induction snap generalizing live with
  | nil => simp [broadcastLoop]
  | cons w rest ih =>
    by_cases h : fails w
    · simp [broadcastLoop, h, ih, List.diff_cons]
    · simp [broadcastLoop, h, ih]

/-- On a duplicate-free observer list, one broadcast call delivers to
exactly the members whose send does not fail and leaves exactly those
members in the live list. -/
lemma broadcast_eq_filter (fails : ℕ → Bool) (admins : List ℕ)
    (hnd : admins.Nodup) :
    broadcast fails admins =
      (admins.filter (fun ws => !fails ws),
       admins.filter (fun ws => !fails ws)) := by
  unfold broadcast
  rw [Prod.ext_iff]
  refine ⟨?_, by rw [broadcastLoop_snd]⟩
  rw [broadcastLoop_fst, List.Nodup.diff_eq_filter hnd]
  apply List.filter_congr
  intro x hx
  by_cases h : fails x <;> simp [List.mem_filter, hx, h]

lemma ingestAll_history (username : String) (samples : List Sample)
    (m : ConnectionManager) (h : (m.history username).length ≤ 200) :
    (ingestAll username samples m).history username =
      (m.history username ++ samples).drop
        ((m.history username).length + samples.length - 200) := by
  induction samples generalizing m with
  | nil =>
    simp only [ingestAll, List.foldl_nil, List.append_nil, List.length_nil,
      Nat.add_zero]
    rw [Nat.sub_eq_zero_of_le h, List.drop_zero]
  | cons s rest ih =>
    have hstep : ingestAll username (s :: rest) m =
        ingestAll username rest (recordSample m username s) := rfl
    have hrec : (recordSample m username s).history username =
        if 200 < (m.history username ++ [s]).length then
          (m.history username ++ [s]).tail
        else m.history username ++ [s] := by
      simp [recordSample]
    rw [hstep]
    by_cases hlen : 200 < (m.history username).length + 1
    · -- the buffer is full: `pop(0)` fires
      have h200 : (m.history username).length = 200 := by omega
      have hne : m.history username ≠ [] := by
        intro hnil; rw [hnil] at h200; simp at h200
      have hrec' : (recordSample m username s).history username =
          (m.history username).tail ++ [s] := by
        rw [hrec, if_pos (by simpa using hlen), List.tail_append_of_ne_nil hne]
      have := ih (recordSample m username s)
        (by rw [hrec']; simp [List.length_tail]; omega)
      rw [this, hrec']
      have hlen' : ((m.history username).tail ++ [s]).length +
          rest.length - 200 = rest.length := by
        simp [List.length_tail]
        omega
      have hidx : (m.history username).length + (s :: rest).length - 200 =
          rest.length + 1 := by
        simp only [List.length_cons]
        omega
      rw [hlen', hidx]
      have hdd : (m.history username ++ s :: rest).drop (rest.length + 1) =
          ((m.history username ++ s :: rest).drop 1).drop rest.length := by
        rw [List.drop_drop, Nat.add_comm]
      rw [hdd, List.drop_one, List.tail_append_of_ne_nil hne]
      simp
    · -- the buffer has room: plain append
      have hrec' : (recordSample m username s).history username =
          m.history username ++ [s] := by
        rw [hrec, if_neg (by simpa using hlen)]
      have := ih (recordSample m username s)
        (by rw [hrec']; simp; omega)
      rw [this, hrec']
      have hidx : (m.history username ++ [s]).length + rest.length - 200 =
          (m.history username).length + (s :: rest).length - 200 := by
        simp only [List.length_append, List.length_cons, List.length_nil]
        omega
      rw [hidx]
      simp

lemma userStep_malformed (fails : ℕ → Bool) (username : String)
    (frame : Option RawMsg) (now : Int) (m : ConnectionManager)
    (db : List Location) (admins : List ℕ) (hbad : Malformed frame) :
    userStep fails username frame now m db admins = .error () := by
  rcases hbad with h | ⟨msg, rfl, h⟩
  · subst h; rfl
  · rcases h with h | h
    · cases hlon : pyFloat msg.lonField <;> simp [userStep, h, hlon]
    · cases hlat : pyFloat msg.latField <;> simp [userStep, h, hlat]

/-- The sort underlying the history query is descending by timestamp. -/
lemma mergeSort_desc (F : List Location) :
    (F.mergeSort (fun a b => b.timestamp ≤ a.timestamp)).Pairwise
      (fun a b => b.timestamp ≤ a.timestamp) := by
  have htrans : ∀ a b c : Location,
      (decide (b.timestamp ≤ a.timestamp)) = true →
      (decide (c.timestamp ≤ b.timestamp)) = true →
      (decide (c.timestamp ≤ a.timestamp)) = true := by
    intro a b c hab hbc
    simp only [decide_eq_true_eq] at hab hbc ⊢
    omega
  have htotal : ∀ a b : Location,
      ((decide (b.timestamp ≤ a.timestamp)) ||
        (decide (a.timestamp ≤ b.timestamp))) = true := by
    intro a b
    simp only [Bool.or_eq_true, decide_eq_true_eq]
    omega
  have h := @List.sorted_mergeSort Location
    (fun a b => decide (b.timestamp ≤ a.timestamp)) htrans htotal F
  exact h.imp (by intro a b hab; simpa using hab)

lemma queryRecent_length (db : List Location) (u : String) :
    (queryRecent db u).length =
      min (db.filter (fun r => r.username = u)).length 200 := by
  simp only [queryRecent, List.length_take, (List.mergeSort_perm _ _).length_eq]
  omega

lemma queryRecent_sorted (db : List Location) (u : String) :
    (queryRecent db u).Pairwise (fun a b => b.timestamp ≤ a.timestamp) := by
  simp only [queryRecent]
  exact (mergeSort_desc _).sublist (List.take_sublist _ _)

lemma queryRecent_mem (db : List Location) (u : String) :
    ∀ r ∈ queryRecent db u, r ∈ db ∧ r.username = u := by
  intro r hr
  simp only [queryRecent] at hr
  have h1 : r ∈ db.filter (fun x => x.username = u) :=
    (List.mergeSort_perm _ _).subset (List.take_subset _ _ hr)
  simpa using h1

/-- In a `Pairwise`-ordered list, every element of the prefix of length `n`
relates to every element beyond it. -/
lemma pairwise_take_drop {α : Type} {R : α → α → Prop} (l : List α) (n : ℕ)
    (h : l.Pairwise R) : ∀ a ∈ l.take n, ∀ b ∈ l.drop n, R a b := by
  rw [← List.take_append_drop n l] at h
  exact (List.pairwise_append.mp h).2.2

lemma queryRecent_most_recent (db : List Location) (u : String) :
    ∀ r ∈ db, r.username = u → r ∉ queryRecent db u →
      ∀ x ∈ queryRecent db u, r.timestamp ≤ x.timestamp := by
  intro r hrdb hru hnot x hx
  simp only [queryRecent] at hnot hx
  have hrF : r ∈ db.filter (fun x => x.username = u) := by
    simp [List.mem_filter, hrdb, hru]
  have hrS : r ∈ (db.filter (fun x => x.username = u)).mergeSort
      (fun a b => b.timestamp ≤ a.timestamp) :=
    (List.mergeSort_perm _ _).mem_iff.mpr hrF
  have hrtd : r ∈ ((db.filter (fun x => x.username = u)).mergeSort
        (fun a b => b.timestamp ≤ a.timestamp)).take 200 ∨
      r ∈ ((db.filter (fun x => x.username = u)).mergeSort
        (fun a b => b.timestamp ≤ a.timestamp)).drop 200 := by
    rw [← List.mem_append, List.take_append_drop]
    exact hrS
  have hdrop := hrtd.resolve_left (by simpa using hnot)
  have hcross := pairwise_take_drop _ 200 (mergeSort_desc
    (db.filter (fun x => x.username = u)))
  exact hcross x (by simpa using hx) r hdrop

/-! ## Claim theorems -/

/-- C1: for every identity and every number `K` of consecutive valid samples
ingested for that identity, the in-memory history buffer for that identity
has length `min K 200` and its contents equal the last `min K 200` samples
in arrival order (oldest evicted first when the cap is exceeded). -/
theorem history_buffer_fifo (username : String) (samples : List Sample)
    (m : ConnectionManager) (h0 : m.history username = []) :
    ((ingestAll username samples m).history username).length =
      min samples.length 200 ∧
    (ingestAll username samples m).history username =
      samples.drop (samples.length - 200) := by
  have h := ingestAll_history username samples m (by rw [h0]; simp)
  rw [h0] at h
  simp only [List.nil_append, List.length_nil, Nat.zero_add] at h
  refine ⟨?_, h⟩
  rw [h, List.length_drop]
  omega

/-- C1 witness: three samples ingested from the empty buffer. -/
theorem history_buffer_fifo_witness :
    ((ingestAll "u1" [⟨⟨371, 1⟩, ⟨-1222, 1⟩, 5⟩, ⟨⟨372, 1⟩, ⟨-1223, 1⟩, 6⟩,
        ⟨⟨373, 1⟩, ⟨-1224, 1⟩, 7⟩] ConnectionManager.init).history "u1").length =
      min 3 200 ∧
    (ingestAll "u1" [⟨⟨371, 1⟩, ⟨-1222, 1⟩, 5⟩, ⟨⟨372, 1⟩, ⟨-1223, 1⟩, 6⟩,
        ⟨⟨373, 1⟩, ⟨-1224, 1⟩, 7⟩] ConnectionManager.init).history "u1" =
      [⟨⟨371, 1⟩, ⟨-1222, 1⟩, 5⟩, ⟨⟨372, 1⟩, ⟨-1223, 1⟩, 6⟩,
        ⟨⟨373, 1⟩, ⟨-1224, 1⟩, 7⟩] :=
  history_buffer_fifo "u1" _ ConnectionManager.init rfl

/-- C2: a sample `{lat, lon}` from an authenticated tracked user produces
exactly the broadcast payload `{type: "update", username, lat, lon, ts}`
(with the server-side timestamp), delivered once to every admin, and exactly
one matching row appended to the durable store. -/
theorem sample_broadcast_and_single_append (fails : ℕ → Bool)
    (username : String) (msg : RawMsg) (lat lon : Dec) (now : Int)
    (m : ConnectionManager) (db : List Location) (admins : List ℕ)
    (hlat : pyFloat msg.latField = some lat)
    (hlon : pyFloat msg.lonField = some lon)
    (hok : ∀ ws ∈ admins, fails ws = false) :
    userStep fails username (some msg) now m db admins =
      .ok ⟨recordSample m username ⟨lat, lon, now⟩,
           db ++ [⟨username, lat, lon, now⟩],
           admins,
           ⟨"update", username, lat, lon, now⟩,
           admins⟩ := by
  have hb : broadcast fails admins = (admins, admins) := by
    unfold broadcast
    rw [Prod.ext_iff, broadcastLoop_fst, broadcastLoop_snd]
    constructor
    · have h1 : admins.filter (fun ws => fails ws) = [] := by
        rw [List.filter_eq_nil_iff]
        intro a ha
        simp [hok a ha]
      rw [h1]
      rfl
    · rw [List.filter_eq_self]
      intro a ha
      simp [hok a ha]
  simp [userStep, hlat, hlon, hb]

/-- C2 witness: one sample from `"u1"` with two healthy admins. -/
theorem sample_broadcast_and_single_append_witness :
    userStep (fun _ => false) "u1"
        (some ⟨some (.num ⟨371, 1⟩), some (.num ⟨-1222, 1⟩)⟩) 99
        ConnectionManager.init [] [0, 1] =
      .ok ⟨recordSample ConnectionManager.init "u1" ⟨⟨371, 1⟩, ⟨-1222, 1⟩, 99⟩,
           [⟨"u1", ⟨371, 1⟩, ⟨-1222, 1⟩, 99⟩],
           [0, 1],
           ⟨"update", "u1", ⟨371, 1⟩, ⟨-1222, 1⟩, 99⟩,
           [0, 1]⟩ :=
  sample_broadcast_and_single_append _ _ _ _ _ _ _ _ _ rfl rfl
    (by intro ws _; rfl)

/-- C3: in a single broadcast call over a duplicate-free observer set in
which exactly one observer's send fails, every other observer still
receives the message, exactly the failed observer is removed from the live
set, and the failure is not propagated: the tracked-user iteration still
completes normally with the same payload and durable append. -/
theorem failed_send_isolated (fails : ℕ → Bool) (admins : List ℕ) (w : ℕ)
    (username : String) (msg : RawMsg) (lat lon : Dec) (now : Int)
    (m : ConnectionManager) (db : List Location)
    (hnd : admins.Nodup) (hw : w ∈ admins) (hfw : fails w = true)
    (hothers : ∀ v ∈ admins, v ≠ w → fails v = false)
    (hlat : pyFloat msg.latField = some lat)
    (hlon : pyFloat msg.lonField = some lon) :
    (broadcast fails admins).2 = admins.erase w ∧
    (broadcast fails admins).1 = admins.erase w ∧
    userStep fails username (some msg) now m db admins =
      .ok ⟨recordSample m username ⟨lat, lon, now⟩,
           db ++ [⟨username, lat, lon, now⟩],
           admins.erase w,
           ⟨"update", username, lat, lon, now⟩,
           admins.erase w⟩ := by
  have hfe : admins.filter (fun ws => !fails ws) = admins.erase w := by
    rw [List.Nodup.erase_eq_filter hnd]
    apply List.filter_congr
    intro x hx
    by_cases hxw : x = w
    · subst hxw; simp [hfw]
    · simp [hothers x hx hxw, hxw]
  have hb : broadcast fails admins = (admins.erase w, admins.erase w) := by
    rw [broadcast_eq_filter fails admins hnd, hfe]
  refine ⟨by rw [hb], by rw [hb], ?_⟩
  simp [userStep, hlat, hlon, hb]

/-- C3 witness: observers `[0, 1, 2]`, the send to `1` fails. -/
theorem failed_send_isolated_witness :
    (broadcast (fun v => v == 1) [0, 1, 2]).2 = ([0, 1, 2] : List ℕ).erase 1 ∧
    (broadcast (fun v => v == 1) [0, 1, 2]).1 = ([0, 1, 2] : List ℕ).erase 1 ∧
    userStep (fun v => v == 1) "u1"
        (some ⟨some (.num ⟨371, 1⟩), some (.num ⟨-1222, 1⟩)⟩) 99
        ConnectionManager.init [] [0, 1, 2] =
      .ok ⟨recordSample ConnectionManager.init "u1" ⟨⟨371, 1⟩, ⟨-1222, 1⟩, 99⟩,
           [⟨"u1", ⟨371, 1⟩, ⟨-1222, 1⟩, 99⟩],
           ([0, 1, 2] : List ℕ).erase 1,
           ⟨"update", "u1", ⟨371, 1⟩, ⟨-1222, 1⟩, 99⟩,
           ([0, 1, 2] : List ℕ).erase 1⟩ :=
  failed_send_isolated _ _ 1 _ _ _ _ _ _ _ (by decide) (by decide) rfl
    (by decide) rfl rfl

/-- C4: after any sequence of `recordSample` operations interleaved across
distinct identities, the latest-position entry of each identity equals the
most recently recorded sample for that identity (and is untouched when no
sample was recorded for it). -/
theorem latest_is_most_recent (events : List (String × Sample))
    (m : ConnectionManager) (u : String) :
    (recordEvents events m).latest u =
      ((events.filter (fun e => e.1 = u)).getLast?).elim (m.latest u)
        (fun e => some e.2) := by
  induction events using List.reverseRecOn with
  | nil => rfl
  | append_singleton es e ih =>
    have hfold : recordEvents (es ++ [e]) m =
        recordSample (recordEvents es m) e.1 e.2 := by
      simp [recordEvents, List.foldl_append]
    rw [hfold]
    by_cases he : e.1 = u
    · simp [recordSample, List.filter_append, he, List.getLast?_append]
    · have hne : ¬u = e.1 := fun h => he h.symm
      simp [recordSample, List.filter_append, he, hne, ih]

/-- C5: a credential verifying to an identity that is missing from the user
store or lacks the admin role is rejected by the admin entry point with the
policy-violation close code 1008, and the observer set is left unchanged
(the connection is never added, no state mutation occurs). -/
theorem admin_rejects_non_admin (decoded : Option TokenPayload)
    (users : String → Option UserRow) (ws : ℕ) (m : ConnectionManager)
    (admins : List ℕ) (u : String)
    (hu : verify_token decoded = .ok u)
    (hrole : users u = none ∨ ∃ row, users u = some row ∧ row.is_admin = 0) :
    websocket_admin decoded users ws m admins = .policyClosed 1008 admins := by
  rcases hrole with h | ⟨row, h, hrow⟩
  · simp [websocket_admin, hu, h]
  · simp [websocket_admin, hu, h, hrow]

/-- C5 witness: a verified non-admin identity presented to the admin
endpoint. -/
theorem admin_rejects_non_admin_witness :
    websocket_admin (some ⟨some "u1"⟩) (fun _ => some ⟨0⟩) 7
        ConnectionManager.init [3, 4] = .policyClosed 1008 [3, 4] :=
  admin_rejects_non_admin _ _ 7 _ _ "u1" rfl (Or.inr ⟨⟨0⟩, rfl, rfl⟩)

/-- C6: a message whose payload is unparseable or whose `lat`/`lon` fields
are non-numeric or missing is fatal to the tracked-user connection: the
receive loop stops at that message (the remaining frames are never
processed), the live-session entry is unregistered, and the latest-position
and history entries are left unpurged. -/
theorem malformed_message_fatal (fails : ℕ → Bool) (username : String)
    (frame : Option RawMsg) (now : Int)
    (rest : List (Option RawMsg × Int)) (m : ConnectionManager)
    (db : List Location) (admins : List ℕ) (hbad : Malformed frame) :
    userLoop fails username ((frame, now) :: rest) m db admins =
      (m.disconnect username, db, admins) ∧
    (m.disconnect username).active_connections username = none ∧
    (m.disconnect username).latest = m.latest ∧
    (m.disconnect username).history = m.history := by
  refine ⟨?_, ?_, rfl, rfl⟩
  · simp [userLoop,
      userStep_malformed fails username frame now m db admins hbad]
  · simp [ConnectionManager.disconnect]

/-- C6 witness: a non-numeric latitude string, with a further valid frame
pending that is never processed. -/
theorem malformed_message_fatal_witness :
    userLoop (fun _ => false) "u1"
        [(some ⟨some (.str "abc"), some (.num ⟨-1222, 1⟩)⟩, 5),
         (some ⟨some (.num ⟨371, 1⟩), some (.num ⟨-1222, 1⟩)⟩, 6)]
        ConnectionManager.init [] [] =
      (ConnectionManager.init.disconnect "u1", [], []) ∧
    (ConnectionManager.init.disconnect "u1").active_connections "u1" = none ∧
    (ConnectionManager.init.disconnect "u1").latest =
      ConnectionManager.init.latest ∧
    (ConnectionManager.init.disconnect "u1").history =
      ConnectionManager.init.history :=
  malformed_message_fatal _ _ _ 5 _ _ _ []
    (Or.inr ⟨_, rfl, Or.inl (by decide)⟩)

/-- C7: disconnecting and then reconnecting an identity replaces its
live-session entry (silent overwrite, at most one entry per identity since
the registry is a map), the latest-position and history entries survive
both operations unchanged, and disconnect touches no other identity's
live-session entry. -/
theorem reconnect_replaces_live_session (m : ConnectionManager)
    (u : String) (ws ws' : ℕ) :
    ((m.disconnect u).connect u ws').active_connections u = some ws' ∧
    (m.connect u ws).active_connections u = some ws ∧
    ((m.disconnect u).connect u ws').latest = m.latest ∧
    ((m.disconnect u).connect u ws').history = m.history ∧
    (m.disconnect u).latest = m.latest ∧
    (m.disconnect u).history = m.history ∧
    ∀ v, (m.disconnect u).active_connections v =
      if v = u then none else m.active_connections v := by
  refine ⟨?_, ?_, rfl, rfl, rfl, rfl, fun v => rfl⟩ <;>
    simp [ConnectionManager.connect, ConnectionManager.disconnect]

/-- C8: with any successfully verified credential — no admin role required,
the user store is never consulted — the history endpoint returns the query
result as `{lat, lon, ts}` tuples, where the query yields at most 200 rows
for the identity: as many as stored up to 200, ordered newest-first, all
drawn from the store, and no stored row for the identity outside the result
is newer than any returned row. -/
theorem history_query_recent_desc (decoded : Option TokenPayload)
    (db : List Location) (u who : String)
    (hv : verify_token decoded = .ok who) :
    get_history decoded db u =
      .ok ((queryRecent db u).map fun r => ⟨r.lat, r.lon, r.timestamp⟩) ∧
    (queryRecent db u).length =
      min (db.filter (fun r => r.username = u)).length 200 ∧
    (queryRecent db u).Pairwise (fun a b => b.timestamp ≤ a.timestamp) ∧
    (∀ r ∈ queryRecent db u, r ∈ db ∧ r.username = u) ∧
    (∀ r ∈ db, r.username = u → r ∉ queryRecent db u →
      ∀ x ∈ queryRecent db u, r.timestamp ≤ x.timestamp) := by
  exact ⟨by simp [get_history, hv], queryRecent_length db u,
    queryRecent_sorted db u, queryRecent_mem db u,
    queryRecent_most_recent db u⟩

/-- C8 witness: a non-admin identity `"u2"` queries `"u1"`'s history; the
store holds two `"u1"` rows and one `"u3"` row. -/
theorem history_query_recent_desc_witness :
    get_history (some ⟨some "u2"⟩)
        [⟨"u1", ⟨371, 1⟩, ⟨-1222, 1⟩, 5⟩, ⟨"u3", ⟨1, 0⟩, ⟨2, 0⟩, 8⟩,
         ⟨"u1", ⟨372, 1⟩, ⟨-1223, 1⟩, 9⟩] "u1" =
      .ok [⟨⟨372, 1⟩, ⟨-1223, 1⟩, 9⟩, ⟨⟨371, 1⟩, ⟨-1222, 1⟩, 5⟩] := by
  have h := history_query_recent_desc (some ⟨some "u2"⟩)
    [⟨"u1", ⟨371, 1⟩, ⟨-1222, 1⟩, 5⟩, ⟨"u3", ⟨1, 0⟩, ⟨2, 0⟩, 8⟩,
     ⟨"u1", ⟨372, 1⟩, ⟨-1223, 1⟩, 9⟩] "u1" "u2" rfl
  rw [h.1]
  simp [queryRecent, List.mergeSort]

/-- C9: a token whose signature verifies but whose decoded payload has no
`"sub"` claim is rejected by `verify_token`, so the tracked-user endpoint,
the admin endpoint and the history endpoint all fail the request with an
authentication failure before any state mutation. -/
theorem token_without_sub_rejected (p : TokenPayload) (hp : p.sub = none)
    (fails : ℕ → Bool) (ws : ℕ) (frames : List (Option RawMsg × Int))
    (m m2 : ConnectionManager) (db db2 : List Location)
    (admins admins2 : List ℕ) (users : String → Option UserRow)
    (u : String) :
    verify_token (some p) = .error () ∧
    websocket_user (some p) fails ws frames m db admins =
      .policyClosed 1008 m db admins ∧
    websocket_admin (some p) users ws m2 admins2 =
      .policyClosed 1008 admins2 ∧
    get_history (some p) db2 u = .error () := by
  have hv : verify_token (some p) = .error () := by
    simp [verify_token, hp]
  exact ⟨hv, by simp [websocket_user, hv], by simp [websocket_admin, hv],
    by simp [get_history, hv]⟩

/-- C9 witness: the empty claims object. -/
theorem token_without_sub_rejected_witness :
    verify_token (some ⟨none⟩) = .error () ∧
    websocket_user (some ⟨none⟩) (fun _ => false) 7 []
        ConnectionManager.init [] [] =
      .policyClosed 1008 ConnectionManager.init [] [] ∧
    websocket_admin (some ⟨none⟩) (fun _ => some ⟨1⟩) 7
        ConnectionManager.init [3] =
      .policyClosed 1008 [3] ∧
    get_history (some ⟨none⟩) [] "u1" = .error () :=
  token_without_sub_rejected ⟨none⟩ rfl _ 7 [] _ _ _ _ _ _ _ "u1"

/-- C10: a message whose `lat` and `lon` fields are numeric strings is
accepted by the ingestion loop: `float()` coerces the strings, and the
message is recorded and broadcast exactly like one carrying JSON numbers. -/
theorem numeric_string_coerced (fails : ℕ → Bool) (username : String)
    (s1 s2 : String) (lat lon : Dec) (now : Int) (m : ConnectionManager)
    (db : List Location) (admins : List ℕ)
    (h1 : parseDecimal s1 = some lat) (h2 : parseDecimal s2 = some lon) :
    userStep fails username (some ⟨some (.str s1), some (.str s2)⟩) now
        m db admins =
      .ok ⟨recordSample m username ⟨lat, lon, now⟩,
           db ++ [⟨username, lat, lon, now⟩],
           (broadcast fails admins).1,
           ⟨"update", username, lat, lon, now⟩,
           (broadcast fails admins).2⟩ := by
  simp [userStep, pyFloat, h1, h2]

/-- C10 witness: the strings `"37.1"` and `"-122.2"`. -/
theorem numeric_string_coerced_witness :
    userStep (fun _ => false) "u1"
        (some ⟨some (.str "37.1"), some (.str "-122.2")⟩) 99
        ConnectionManager.init [] [] =
      .ok ⟨recordSample ConnectionManager.init "u1" ⟨⟨371, 1⟩, ⟨-1222, 1⟩, 99⟩,
           [⟨"u1", ⟨371, 1⟩, ⟨-1222, 1⟩, 99⟩],
           (broadcast (fun _ => false) []).1,
           ⟨"update", "u1", ⟨371, 1⟩, ⟨-1222, 1⟩, 99⟩,
           (broadcast (fun _ => false) []).2⟩ :=
  numeric_string_coerced _ _ "37.1" "-122.2" _ _ 99 _ [] []
    (by decide) (by decide)

end Paintball
